import Mathlib

/-!
Verification development for the scrape2md crawler
(src/scrape2md/scraper.py).

The Python source is shallowly embedded below.  Pure string functions
(URL normalisation, link extraction, junk/priority classification,
filename sanitisation, markdown post-processing) are translated into
executable Lean functions over `String`/`List Char`.  The stateful
crawl loop of `WebScraper.scrape_site` and the per-page processing of
`WebScraper.scrape_page` are embedded as explicit state-passing
functions; the external collaborators (the browser renderer, the HTML
parser applied to fetched pages, the filesystem, the MD5 digest) are
abstracted as an oracle record whose fields are functions of the page
URL, since for a fixed crawl run each fetched page is a fixed document.

Character-level caveats, noted where relevant: Python's `str.lower`,
`\w`, `\s` and `str.strip` are Unicode-aware; the embedding models
their ASCII behaviour, which coincides with Python on ASCII input (the
URLs and phrases handled by this program).  `urllib.parse` is modelled
for URLs free of ASCII control characters (the WHATWG strip steps of
`urlsplit` are the identity on such inputs), and `parse_qsl` for
query strings without percent-escapes.
-/

set_option linter.unusedVariables false

namespace Scrape2MD

/-! ## Generic string / list helpers (Python string primitives) -/

/-- Is the needle a prefix of the haystack (`str.startswith`)? -/
def listIsPrefix : List Char → List Char → Bool
  | [], _ => true
  | _ :: _, [] => false
  | p :: ps, c :: cs => p == c && listIsPrefix ps cs

/-- Does the haystack contain the needle as a contiguous substring
(Python's `needle in hay`)? -/
def listIsInfix (needle : List Char) : List Char → Bool
  | [] => listIsPrefix needle []
  | c :: rest => listIsPrefix needle (c :: rest) || listIsInfix needle rest

/-- Python `pattern in s` (substring containment). -/
def strContains (hay needle : String) : Bool :=
  listIsInfix needle.data hay.data

/-- Python `s.startswith(pre)`. -/
def strStartsWith (s pre : String) : Bool :=
  listIsPrefix pre.data s.data

/-- Split at the first occurrence of `sep`: `some (before, after)` when
`sep` occurs, `none` otherwise (the engine of Python `split(sep, 1)`). -/
def splitFirst (sep : Char) : List Char → Option (List Char × List Char)
  | [] => none
  | c :: rest =>
    if c == sep then some ([], rest)
    else
      match splitFirst sep rest with
      | some (a, b) => some (c :: a, b)
      | none => none

/-- Python `s.split(sep, maxsplit)` for a one-character separator. -/
def pySplitN (s : List Char) (sep : Char) : Nat → List (List Char)
  | 0 => [s]
  | n + 1 =>
    match splitFirst sep s with
    | none => [s]
    | some (a, b) => a :: pySplitN b sep n

/-- Join chunks with a one-character separator (Python `sep.join`). -/
def joinChar (sep : Char) : List (List Char) → List Char
  | [] => []
  | [l] => l
  | l :: ls => l ++ sep :: joinChar sep ls

/-- The ASCII whitespace class of Python `\s` / `str.strip()`. -/
def isSpaceChar (c : Char) : Bool :=
  c == ' ' || c == '\t' || c == '\n' || c == '\r' || c == '\x0b' || c == '\x0c'

/-- The ASCII part of Python's `\w` word-character class. -/
def isWordChar (c : Char) : Bool :=
  c.isAlphanum || c == '_'

/-- Python `s.strip()` on a character list (ASCII whitespace). -/
def pyStripList (l : List Char) : List Char :=
  ((l.dropWhile isSpaceChar).reverse.dropWhile isSpaceChar).reverse

/-- Python `s.strip()`. -/
def pyStrip (s : String) : String :=
  String.mk (pyStripList s.data)

/-- Python `s.lower()` (ASCII). -/
def pyLower (s : String) : String :=
  String.mk (s.data.map Char.toLower)

/-- Lookup in an association list, first match wins (models membership
and indexing of a Python dict whose keys are inserted at most once). -/
def dictLookup (k : String) : List (String × String) → Option String
  | [] => none
  | (a, b) :: t => if a == k then some b else dictLookup k t

/-- Drop an expected literal prefix, returning the remainder. -/
def dropPrefixL : List Char → List Char → Option (List Char)
  | [], l => some l
  | _ :: _, [] => none
  | p :: ps, c :: cs => if c == p then dropPrefixL ps cs else none

/-! ## Model of `urllib.parse` (urlparse / urlunparse / urljoin)

`WebScraper` builds on `urlparse`, `urlunparse`, `urljoin` and
`parse_qs` from the Python standard library.  They are modelled here
following the CPython implementation, for inputs free of ASCII control
characters (on such inputs the defensive WHATWG strip steps at the top
of `urlsplit` are the identity). -/

/-- The six components returned by Python `urlparse`. -/
structure PyUrl where
  scheme : String
  netloc : String
  path : String
  params : String
  query : String
  fragment : String
deriving DecidableEq, Repr

/-- Characters allowed in a URL scheme after the first (CPython
`scheme_chars`). -/
def isSchemeChar (c : Char) : Bool :=
  c.isAlphanum || c == '+' || c == '-' || c == '.'

/-- Scheme extraction step of CPython `urlsplit`: split at the first
`':'` when the prefix is a well-formed scheme, else keep the default. -/
def pySplitScheme (url : List Char) (dflt : String) : String × List Char :=
  match splitFirst ':' url with
  | some (before, after) =>
    match before with
    | [] => (dflt, url)
    | c0 :: rest =>
      if c0.isAlpha && rest.all isSchemeChar then
        (String.mk ((c0 :: rest).map Char.toLower), after)
      else (dflt, url)
  | none => (dflt, url)

/-- Take characters up to the first of `/ ? #` (CPython `_splitnetloc`:
the netloc ends at the first of these delimiters). -/
def netlocSpan : List Char → List Char × List Char
  | [] => ([], [])
  | c :: rest =>
    if c == '/' || c == '?' || c == '#' then ([], c :: rest)
    else
      let p := netlocSpan rest
      (c :: p.1, p.2)

/-- Netloc extraction step of CPython `urlsplit`: only a URL starting
with `//` has a netloc. -/
def pySplitNetloc (url : List Char) : String × List Char :=
  match url with
  | c1 :: c2 :: rest =>
    if c1 == '/' && c2 == '/' then
      let p := netlocSpan rest
      (String.mk p.1, p.2)
    else ("", url)
  | _ => ("", url)

/-- Fragment split of CPython `urlsplit` (first `'#'`). -/
def pySplitFragment (url : List Char) : List Char × String :=
  match splitFirst '#' url with
  | some (a, b) => (a, String.mk b)
  | none => (url, "")

/-- Query split of CPython `urlsplit` (first `'?'`). -/
def pySplitQuery (url : List Char) : List Char × String :=
  match splitFirst '?' url with
  | some (a, b) => (a, String.mk b)
  | none => (url, "")

/-- `before ++ '/' :: after` decomposition at the LAST slash,
`after` slash-free (used by CPython `_splitparams`). -/
def splitLastSlash (p : List Char) : Option (List Char × List Char) :=
  match splitFirst '/' p.reverse with
  | some (afterRev, beforeRev) => some (beforeRev.reverse, afterRev.reverse)
  | none => none

/-- Params split of CPython `urlparse`/`_splitparams`: only the part of
the last path segment after its first `';'` becomes `params`. -/
def pySplitParams (p : List Char) : List Char × List Char :=
  if p.contains ';' then
    match splitLastSlash p with
    | some (before, after) =>
      (match splitFirst ';' after with
       | some (a1, a2) => (before ++ '/' :: a1, a2)
       | none => (p, []))
    | none =>
      (match splitFirst ';' p with
       | some (a1, a2) => (a1, a2)
       | none => (p, []))
  else (p, [])

/-- The splitting pipeline of CPython `urlsplit`/`urlparse` on the
character list: scheme, then netloc, then fragment, then query, then
params. -/
def urlparseCore (url : List Char) (dflt : String) : PyUrl :=
  let s := pySplitScheme url dflt
  let n := pySplitNetloc s.2
  let f := pySplitFragment n.2
  let q := pySplitQuery f.1
  let pp := pySplitParams q.1
  ⟨s.1, n.1, String.mk pp.1, String.mk pp.2, q.2, f.2⟩

/-- CPython `urlparse(url, scheme=dflt)` (control-character-free input). -/
def urlparseD (url : String) (dflt : String) : PyUrl :=
  urlparseCore url.data dflt

/-- CPython `urlparse(url)`. -/
def urlparse (url : String) : PyUrl :=
  urlparseD url ""

/-- CPython `urlunsplit`. -/
def urlunsplit (scheme netloc url query fragment : String) : String :=
  let url :=
    if netloc ≠ "" ∨ (url ≠ "" ∧ strStartsWith url "//") then
      "//" ++ netloc ++ (if url ≠ "" ∧ ¬ strStartsWith url "/" then "/" ++ url else url)
    else url
  let url := if scheme ≠ "" then scheme ++ ":" ++ url else url
  let url := if query ≠ "" then url ++ "?" ++ query else url
  if fragment ≠ "" then url ++ "#" ++ fragment else url

/-- CPython `urlunparse`. -/
def urlunparse (u : PyUrl) : String :=
  urlunsplit u.scheme u.netloc
    (if u.params ≠ "" then u.path ++ ";" ++ u.params else u.path)
    u.query u.fragment

/-- Schemes that allow relative resolution (CPython `uses_relative`). -/
def uses_relative : List String :=
  ["", "ftp", "http", "gopher", "nntp", "imap", "wais", "file", "https",
   "shttp", "mms", "prospero", "rtsp", "rtspu", "sftp", "svn", "svn+ssh",
   "ws", "wss"]

/-- Schemes that use a network location (CPython `uses_netloc`). -/
def uses_netloc : List String :=
  ["", "ftp", "http", "gopher", "nntp", "telnet", "imap", "wais", "file",
   "mms", "https", "shttp", "snews", "prospero", "rtsp", "rtspu", "rsync",
   "svn", "svn+ssh", "sftp", "nfs", "git", "git+ssh", "ws", "wss",
   "itms-services"]

/-- Keep first and last element, drop empty strings in between
(CPython `segments[1:-1] = filter(None, segments[1:-1])`). -/
def dropMiddleEmpty : List String → List String
  | [] => []
  | [z] => [z]
  | s :: rest => if s = "" then dropMiddleEmpty rest else s :: dropMiddleEmpty rest

/-- `segments[1:-1] = filter(None, segments[1:-1])` on the whole list. -/
def filterMiddle : List String → List String
  | [] => []
  | [a] => [a]
  | a :: rest => a :: dropMiddleEmpty rest

/-- The `.` / `..` resolution loop of CPython `urljoin`. -/
def resolveSegs (acc : List String) : List String → List String
  | [] => acc
  | ".." :: rest => resolveSegs acc.dropLast rest
  | "." :: rest => resolveSegs acc rest
  | s :: rest => resolveSegs (acc ++ [s]) rest

/-- CPython `urljoin(base, url)` (control-character-free input). -/
def urljoin (base url : String) : String :=
  if base = "" then url
  else if url = "" then base
  else
    let b := urlparseD base ""
    let u := urlparseD url b.scheme
    if u.scheme ≠ b.scheme ∨ ¬ uses_relative.contains u.scheme then url
    else if uses_netloc.contains u.scheme ∧ u.netloc ≠ "" then
      urlunparse ⟨u.scheme, u.netloc, u.path, u.params, u.query, u.fragment⟩
    else
      let netloc := if uses_netloc.contains u.scheme then b.netloc else u.netloc
      if u.path = "" ∧ u.params = "" then
        urlunparse ⟨u.scheme, netloc, b.path, b.params,
          (if u.query = "" then b.query else u.query), u.fragment⟩
      else
        let baseParts := b.path.splitOn "/"
        let baseParts := if baseParts.getLastD "" ≠ "" then baseParts.dropLast else baseParts
        let segments :=
          if strStartsWith u.path "/" then u.path.splitOn "/"
          else filterMiddle (baseParts ++ u.path.splitOn "/")
        let resolved := resolveSegs [] segments
        let resolved :=
          if segments.getLastD "" = "." ∨ segments.getLastD "" = ".." then resolved ++ [""]
          else resolved
        let rp := String.intercalate "/" resolved
        urlunparse ⟨u.scheme, netloc, (if rp = "" then "/" else rp), u.params, u.query, u.fragment⟩

/-- Python `'+' -> ' '` step of `unquote_plus` (queries without
percent-escapes). -/
def pyUnquotePlus (s : String) : String :=
  String.mk (s.data.map (fun c => if c == '+' then ' ' else c))

/-- CPython `parse_qsl(query)` with default arguments (blank values and
chunks without `'='` are dropped), for queries without percent-escapes. -/
def parse_qsl (query : String) : List (String × String) :=
  (query.splitOn "&").filterMap fun nv =>
    if nv = "" then none
    else
      match splitFirst '=' nv.data with
      | some (n, v) =>
        if v ≠ [] then some (pyUnquotePlus (String.mk n), pyUnquotePlus (String.mk v))
        else none
      | none => none

/-- First value of the `Menu_Item_ID` query parameter, as obtained via
`parse_qs(query)['Menu_Item_ID'][0]` (present iff the key is in the
dict returned by `parse_qs`). -/
def getMenuItemID (query : String) : Option String :=
  ((parse_qsl query).find? (fun p => p.1 == "Menu_Item_ID")).map (·.2)

/-! ## Constants of `scraper.py` -/

def MIN_PAGE_TEXT_LENGTH : Nat := 200
def MIN_IMPORTANT_PAGE_TEXT_LENGTH : Nat := 50
def MAX_FILENAME_LENGTH : Nat := 100
def MARKDOWN_HEADER_SPLIT : Nat := 2
def MARKDOWN_HEADER_LINES : Nat := 2

/-! ## `WebScraper.normalize_url` (scraper.py lines 83-94) -/

/-- Python `path.rstrip('/')`: remove every trailing slash. -/
def rstripSlash (p : String) : String :=
  String.mk (p.data.reverse.dropWhile (· == '/')).reverse

/-- `WebScraper.normalize_url`: drop the fragment; strip trailing
slashes from the path unless the path is exactly `"/"`. -/
def normalize_url (url : String) : String :=
  let parsed := urlparse url
  urlunparse
    ⟨parsed.scheme, parsed.netloc,
     (if parsed.path ≠ "/" then rstripSlash parsed.path else "/"),
     parsed.params, parsed.query, ""⟩

/-! ## `WebScraper.extract_url_from_javascript` (lines 96-107) -/

/-- Match the regex `LinkTo\(['"]([^'"]+)['"]` at the head of the
input; return the captured group.  (`[^'"]+` is greedy and must be
followed by a quote, so no backtracking can occur: the group is the
maximal quote-free run after the opening quote.) -/
def linkToCapture (l : List Char) : Option (List Char) :=
  match dropPrefixL ("LinkTo(".data) l with
  | none => none
  | some r =>
    match r with
    | [] => none
    | q :: rest =>
      if q == '\'' || q == '"' then
        let grp := rest.takeWhile (fun c => !(c == '\'' || c == '"'))
        match rest.dropWhile (fun c => !(c == '\'' || c == '"')) with
        | [] => none
        | _ :: _ => if grp.isEmpty then none else some grp
      else none

/-- `re.search` of the `LinkTo` pattern: leftmost match. -/
def searchLinkTo : List Char → Option (List Char)
  | [] => none
  | c :: rest =>
    match linkToCapture (c :: rest) with
    | some g => some g
    | none => searchLinkTo rest

/-- `WebScraper.extract_url_from_javascript`: only `javascript:` hrefs
are considered; a `LinkTo('target', ...)` match resolves the target
against the context URL, anything else yields no link. -/
def extract_url_from_javascript (js_link context_url : String) : Option String :=
  if ¬ strStartsWith js_link "javascript:" then none
  else
    match searchLinkTo js_link.data with
    | some rel => some (urljoin context_url (String.mk rel))
    | none => none

/-! ## `WebScraper.is_low_priority_url` (lines 151-154) -/

def low_priority_patterns : List String :=
  ["/help.aspx", "/Help.aspx", "help.aspx?ID="]

/-- `WebScraper.is_low_priority_url`: substring match against the fixed
pattern list (case-sensitive, as in the source). -/
def is_low_priority_url (url : String) : Bool :=
  low_priority_patterns.any (fun pattern => strContains url pattern)

/-! ## `WebScraper.is_junk_page` (lines 156-195)

`BeautifulSoup(html).get_text(strip=True)` is modelled for plain HTML
(no comments, CDATA or entities): text runs between tags are each
stripped and the non-empty ones concatenated. -/

/-- Tag-skipping text-run scanner: `inTag` is true between `<` and `>`. -/
def textRunsAux (inTag : Bool) (cur : List Char) : List Char → List (List Char)
  | [] => [cur.reverse]
  | c :: rest =>
    if inTag then
      if c == '>' then textRunsAux false cur rest
      else textRunsAux true cur rest
    else
      if c == '<' then cur.reverse :: textRunsAux true [] rest
      else textRunsAux false (c :: cur) rest

/-- `BeautifulSoup(html, 'html.parser').get_text(strip=True)`:
strip each text run, drop empties, concatenate. -/
def bs_get_text (html : String) : String :=
  String.mk ((((textRunsAux false [] html.data).map pyStripList).filter (· ≠ [])).flatten)

/-- Junk rule (a): known-broken endpoints (lines 158-159). -/
def junk_broken_endpoint (url : String) : Bool :=
  strContains url "FormLoginHelp.aspx" || strContains url "FormDetail.aspx?Form_ID=5184"

/-- Junk rule (b): "Server Error" together with "404" (lines 161-162). -/
def junk_server_error (html_content : String) : Bool :=
  strContains html_content "Server Error" && strContains html_content "404"

/-- Junk rule (c): "The resource cannot be found" (lines 164-165). -/
def junk_resource_not_found (html_content : String) : Bool :=
  strContains html_content "The resource cannot be found"

def google_loading_indicators : List String :=
  ["JavaScript isn't enabled in your browser",
   "Enable and reload",
   "Some slides didn't load",
   "This could take a few moments"]

def google_ui_phrases : List String :=
  ["Open speaker notes", "Turn on the laser pointer",
   "Enter full screen", "Exit slideshow"]

/-- Junk rule (d): a Google loading-error phrase AND a Google UI phrase
both present in the extracted text (lines 170-183). -/
def junk_google_embed_error (text : String) : Bool :=
  (google_loading_indicators.any (fun i => strContains text i)) &&
  (google_ui_phrases.any (fun u => strContains text u))

def important_patterns : List String :=
  ["/faq", "/resources/", "/about", "/guide", "/help"]

/-- Does the lowercased URL contain one of the important patterns
(line 187)? -/
def url_is_important (url : String) : Bool :=
  important_patterns.any (fun pattern => strContains (pyLower url) pattern)

/-- `WebScraper.is_junk_page`, with the source's rule order: broken
endpoints, Server-Error+404, resource-not-found, the Google embed
error pair, then the important-URL 50-character rule, then the generic
200-character rule. -/
def is_junk_page (url html_content : String) : Bool :=
  if junk_broken_endpoint url then true
  else if junk_server_error html_content then true
  else if junk_resource_not_found html_content then true
  else
    let text := bs_get_text html_content
    if junk_google_embed_error text then true
    else if url_is_important url then decide (text.length < MIN_IMPORTANT_PAGE_TEXT_LENGTH)
    else decide (text.length < MIN_PAGE_TEXT_LENGTH)

/-! ## `WebScraper.sanitize_filename` (lines 254-259) -/

/-- `re.sub(r'\s+', ' ', s)`: collapse each whitespace run to one
space; `prevSpace` records whether the previous character was part of
a run already replaced. -/
def collapseWsAux (prevSpace : Bool) : List Char → List Char
  | [] => []
  | c :: rest =>
    if isSpaceChar c then
      if prevSpace then collapseWsAux true rest
      else ' ' :: collapseWsAux true rest
    else c :: collapseWsAux false rest

/-- `WebScraper.sanitize_filename`: drop characters outside
`[\w\s\-.]`, collapse whitespace runs, strip, truncate to 100. -/
def sanitize_filename (title : String) : String :=
  let safe := title.data.filter (fun c => isWordChar c || isSpaceChar c || c == '-' || c == '.')
  let safe := collapseWsAux false safe
  let safe := pyStripList safe
  String.mk (safe.take MAX_FILENAME_LENGTH)

/-! ## `WebScraper.get_safe_filename` (lines 266-280) -/

/-- Python `path.strip('/')`. -/
def stripSlashes (p : String) : String :=
  String.mk (((p.data.dropWhile (· == '/')).reverse.dropWhile (· == '/')).reverse)

/-- `re.sub(r'[^\w\-.]', '_', s)`. -/
def subNonWordChar (s : List Char) : List Char :=
  s.map (fun c => if isWordChar c || c == '-' || c == '.' then c else '_')

/-- `WebScraper.get_safe_filename`: URL-derived fallback filename. -/
def get_safe_filename (url : String) : String :=
  let parsed := urlparse url
  let path := stripSlashes parsed.path
  let filename :=
    if path = "" then "index"
    else String.mk (subNonWordChar (path.data.map (fun c => if c == '/' then '_' else c)))
  if parsed.query ≠ "" then
    filename ++ "_" ++ String.mk ((subNonWordChar parsed.query.data).take 50)
  else filename

/-! ## Filename choice for a scraped page (scraper.py lines 581-607)

The title-or-not decision and home-page special case of
`WebScraper.scrape_page`, as a function of the page title computed by
`extract_page_title` (passed as an `Option String`) and of the
navigation title map `self.url_title_map` (passed as an association
list). -/

def choose_filename (base_url base_domain : String)
    (url_title_map : List (String × String))
    (url : String) (page_title : Option String) : String :=
  match page_title with
  | none =>
    if normalize_url url = normalize_url base_url then "Home"
    else get_safe_filename url
  | some t =>
    if normalize_url url = normalize_url base_url then
      -- lines 589-603; the source computes `is_generic` here and then
      -- never reads it: the chosen branch depends only on has_nav_title
      let generic_patterns : List String := [base_domain, "troop", "welcome"]
      let is_generic := generic_patterns.any (fun pattern => strContains (pyLower t) (pyLower pattern))
      let q := (urlparse url).query
      let has_nav_title :=
        if q ≠ "" then
          match getMenuItemID q with
          | some menu_id => (dictLookup ("Menu_Item_ID=" ++ menu_id) url_title_map).isSome
          | none => false
        else false
      if has_nav_title then sanitize_filename t else "Home"
    else sanitize_filename t

/-! ## Google-embed notice (scraper.py lines 552-567)

The embed-notice block spliced into a non-junk page's markdown when
Google-document frames were detected. -/

/-- One bullet line per embed URL, label chosen by substring match
(lines 554-562; same construction as lines 533-541). -/
def embed_note_lines (embeds : List String) : List String :=
  embeds.map fun embed_url =>
    if strContains embed_url "presentation" then
      "- [View Google Slides Presentation](" ++ embed_url ++ ")"
    else if strContains embed_url "spreadsheets" then
      "- [View Google Sheets Document](" ++ embed_url ++ ")"
    else if strContains embed_url "document" then
      "- [View Google Docs Document](" ++ embed_url ++ ")"
    else
      "- [View Google Document](" ++ embed_url ++ ")"

def embed_note_header : String :=
  "**Note:** This page contains embedded Google documents:"

/-- The `embed_note` string of line 566:
`"\n**Note:** ...:\n" + '\n'.join(embed_notes) + "\n"`. -/
def embed_note (embeds : List String) : String :=
  "\n" ++ embed_note_header ++ "\n" ++ String.intercalate "\n" (embed_note_lines embeds) ++ "\n"

/-- Lines 564-567: `markdown.split('\n', 2)`; when at least two lines
result, rebuild as `lines[0] + '\n' + embed_note + '\n' + '\n'.join(lines[1:])`. -/
def splice_embed_note (markdown : String) (embeds : List String) : String :=
  let lines := pySplitN markdown.data '\n' MARKDOWN_HEADER_SPLIT
  if MARKDOWN_HEADER_SPLIT ≤ lines.length then
    String.mk (lines.headD []) ++ "\n" ++ embed_note embeds ++ "\n" ++
      String.mk (joinChar '\n' lines.tail)
  else markdown

/-- The block that, by `C4`, ends up between the two header lines and
the body: the notice header, the bullet list, then the blank lines the
splice produces. -/
def embed_notice_block (embeds : List String) : String :=
  embed_note_header ++ "\n" ++ String.intercalate "\n" (embed_note_lines embeds) ++ "\n\n\n"

/-! ## Content hash input (scraper.py lines 569-576) -/

/-- `content_for_hash`: everything after the two header lines when the
markdown starts with the `# Source:` header, the full markdown
otherwise. -/
def content_for_hash (markdown : String) : String :=
  let markdown_lines := markdown.splitOn "\n"
  match markdown_lines with
  | [] => markdown
  | first :: _ =>
    if strStartsWith (String.mk first.data) "# Source:" then
      String.intercalate "\n" (markdown_lines.drop MARKDOWN_HEADER_LINES)
    else markdown

/-! ## Crawl model (`scrape_page` lines 499-650, `scrape_site` lines 652-688)

The mutable crawl state of a run, and the per-run page oracle.  The
oracle abstracts the external collaborators: for a fixed run every URL
renders to one fixed document, so the renderer, the junk/embed
classification of the rendered document, the markdown produced for it,
the resolved output filename (which consults the filesystem for
collisions) and the MD5 digest are functions of the URL (respectively
of the hashed text). -/

structure ScrapeState where
  /-- `self.visited_urls` (a set: membership is what matters). -/
  visited : List String
  /-- `self.saved_pages` (content hash → saved filename). -/
  savedPages : List (String × String)
deriving DecidableEq, Repr

structure PageOracle where
  /-- Does processing this URL raise inside the `try` of `scrape_page`
  (navigation, extraction, classification)? -/
  fails : String → Bool
  /-- Normalized same-domain links collected by
  `extract_content_from_iframe` for this URL, in encounter order. -/
  links : String → List String
  /-- `is_junk_page(url, html_content)` for the rendered document. -/
  isJunk : String → Bool
  /-- Whether `detect_google_embeds` returned a non-empty list. -/
  hasEmbeds : String → Bool
  /-- The markdown produced for this URL (the embed-note document on
  the junk-with-embeds path, `html_to_markdown` output, possibly with
  the embed notice spliced in, otherwise). -/
  markdown : String → String
  /-- `hashlib.md5(text.encode()).hexdigest()`. -/
  md5hex : String → String
  /-- The collision-free output filename chosen for this URL. -/
  savedName : String → String

/-- `WebScraper.scrape_page`, returning the updated crawl state and the
`(high_priority, low_priority)` link lists.  Mirrors the source's
control flow: the already-visited and page-cap early returns, marking
the URL visited before any processing, the error path, the junk paths,
the duplicate-hash skip, the save, and the link classification. -/
def scrape_pageM (o : PageOracle) (max_pages : Nat) (st : ScrapeState)
    (url : String) : ScrapeState × List String × List String :=
  if st.visited.contains url then (st, [], [])                    -- lines 501-502
  else if max_pages ≤ st.visited.length then (st, [], [])         -- lines 504-506
  -- line 508: the URL joins `visited_urls` before any processing,
  -- so every later path returns the enlarged visited set
  else if o.fails url then                                        -- lines 648-650
    ({ st with visited := url :: st.visited }, [], [])
  else if o.isJunk url && !o.hasEmbeds url then                   -- lines 546-548
    ({ st with visited := url :: st.visited }, [], [])
  else
    -- line 576 (adding `url` to `visited_urls` does not change `saved_pages`)
    match dictLookup (o.md5hex (pyStrip (content_for_hash (o.markdown url)))) st.savedPages with
    | some _ => ({ st with visited := url :: st.visited }, [], [])  -- lines 577-579
    | none =>
      (⟨url :: st.visited,                                        -- line 617
        st.savedPages ++
          [(o.md5hex (pyStrip (content_for_hash (o.markdown url))), o.savedName url)]⟩,
       -- lines 631-640: links not yet visited, split by priority in order
       ((o.links url).filter (fun l => !(url :: st.visited).contains l)).filter
         (fun l => !is_low_priority_url l),
       ((o.links url).filter (fun l => !(url :: st.visited).contains l)).filter
         (fun l => is_low_priority_url l))

/-- The frontier loop of `WebScraper.scrape_site` (lines 668-681).
`5 * visited < 4 * max_pages` models the Python float comparison
`len(self.visited_urls) < self.max_pages * 0.8` in exact arithmetic
(the two agree for every page cap that a crawl could reach).  The
Python `while` loop terminates because each iteration shrinks a queue
or grows the visited set; `fuel` makes that explicit. -/
def scrape_site_loop (o : PageOracle) (max_pages : Nat) :
    Nat → ScrapeState → List String → List String → ScrapeState
  | 0, st, _, _ => st
  | fuel + 1, st, high_priority_urls, low_priority_urls =>
    if st.visited.length < max_pages then
      match high_priority_urls, low_priority_urls with
      | url :: rest, _ =>
        let r := scrape_pageM o max_pages st url
        scrape_site_loop o max_pages fuel r.1 (rest ++ r.2.1) (low_priority_urls ++ r.2.2)
      | [], url :: rest =>
        if 5 * st.visited.length < 4 * max_pages then
          let r := scrape_pageM o max_pages st url
          scrape_site_loop o max_pages fuel r.1 r.2.1 (rest ++ r.2.2)
        else st                                                   -- lines 673-675: discard, stop
      | [], [] => st                                              -- lines 676-677
    else st

/-- `WebScraper.scrape_site`: start from the normalized base URL in the
high-priority queue. -/
def scrape_siteM (o : PageOracle) (base_url : String) (max_pages fuel : Nat) : ScrapeState :=
  scrape_site_loop o max_pages fuel ⟨[], []⟩ [normalize_url base_url] []

/-- A minimal concrete run: every page renders, has no links, no junk,
no embeds, empty markdown; the digest and filename are the identity. -/
def constOracle : PageOracle :=
  ⟨fun _ => false, fun _ => [], fun _ => false, fun _ => false,
   fun _ => "", fun s => s, fun u => u⟩

/-- A concrete run in which every page renders to the same document. -/
def dupOracle : PageOracle :=
  ⟨fun _ => false, fun _ => [], fun _ => false, fun _ => false,
   fun _ => "# Source: u" ++ "\n\n" ++ "Same body", fun s => s, fun u => u⟩

/-! ## Helper lemmas -/

theorem dictLookup_append_self {k v : String} {l : List (String × String)}
    (h : dictLookup k l = none) :
    dictLookup k (l ++ [(k, v)]) = some v := by
  induction l with
  | nil => simp [dictLookup]
  | cons p t ih =>
    obtain ⟨a, b⟩ := p
    simp only [dictLookup] at h
    simp only [List.cons_append, dictLookup]
    by_cases hk : a == k
    · rw [if_pos hk] at h; exact absurd h (by simp)
    · rw [if_neg hk] at h
      rw [if_neg hk]
      exact ih h

/-! ## Claim C5 — `is_low_priority_url` -/

/-- C5 (counterexample): the claim says a URL containing `/help.aspx`
in ANY letter casing is low priority; the source matches only the two
literal casings `/help.aspx` and `/Help.aspx`, so the all-caps URL
below satisfies the claim's condition yet is classified high
priority. -/
theorem C5_counterexample :
    strContains (pyLower "https://x/HELP.ASPX") "/help.aspx" = true ∧
    is_low_priority_url "https://x/HELP.ASPX" = false := by
  exact ⟨rfl, rfl⟩

/-- C5 (amended): `is_low_priority_url url` is true iff `url` contains
`/help.aspx` or `/Help.aspx` (exact casing) or `help.aspx?ID=`. -/
theorem C5_low_priority_characterisation (url : String) :
    is_low_priority_url url =
      (strContains url "/help.aspx" || strContains url "/Help.aspx" ||
       strContains url "help.aspx?ID=") := by
  simp [is_low_priority_url, low_priority_patterns, Bool.or_assoc]

/-! ## Claim C8 — `sanitize_filename` -/

/-- C8: `sanitize_filename` maps `"Hello, World!"` to `"Hello World"`,
collapses whitespace runs to one space, and its output never exceeds
100 characters. -/
theorem C8_sanitize_filename :
    sanitize_filename "Hello, World!" = "Hello World" ∧
    sanitize_filename "Too \t\n  Many   Spaces" = "Too Many Spaces" ∧
    ∀ title : String, (sanitize_filename title).length ≤ MAX_FILENAME_LENGTH := by
  refine ⟨rfl, rfl, fun title => ?_⟩
  show (List.take MAX_FILENAME_LENGTH _).length ≤ MAX_FILENAME_LENGTH
  simp [List.length_take]

/-! ## Claim C1 — `is_junk_page` and the important-URL exemption -/

/-- C1 (counterexample): `https://x/about` matches an important
pattern and the page text is 57 ≥ 50 characters, yet the page is junk,
because the `Server Error`+`404` rule runs before the important-URL
exemption.  The claim's "never junk ... regardless of the other junk
rules" is false on the source. -/
theorem C1_counterexample :
    url_is_important "https://x/about" = true ∧
    MIN_IMPORTANT_PAGE_TEXT_LENGTH ≤
      (bs_get_text "Server Error 404 0123456789012345678901234567890123456789").length ∧
    is_junk_page "https://x/about"
      "Server Error 404 0123456789012345678901234567890123456789" = true := by
  exact ⟨rfl, by decide, rfl⟩

/-- C1 (amended): for a URL matching an important pattern, PROVIDED
none of the earlier rules fires (broken endpoint, Server-Error+404,
resource-not-found, Google embed error), `is_junk_page` is true iff
the extracted text is shorter than 50 characters; the exemption
short-circuits only the generic 200-character rule. -/
theorem C1_important_pages_amended (url html_content : String)
    (himp : url_is_important url = true)
    (ha : junk_broken_endpoint url = false)
    (hb : junk_server_error html_content = false)
    (hc : junk_resource_not_found html_content = false)
    (hd : junk_google_embed_error (bs_get_text html_content) = false) :
    is_junk_page url html_content =
      decide ((bs_get_text html_content).length < MIN_IMPORTANT_PAGE_TEXT_LENGTH) := by
  simp [is_junk_page, himp, ha, hb, hc, hd]

/-- C1 (witness): the amended rule at a short and benign important page. -/
theorem C1_witness :
    is_junk_page "https://x/about" "hello" =
      decide ((bs_get_text "hello").length < MIN_IMPORTANT_PAGE_TEXT_LENGTH) :=
  C1_important_pages_amended "https://x/about" "hello" rfl rfl rfl rfl rfl

/-! ## Claim C3 — home-page filename choice -/

/-- C3: the source computes `is_generic` (line 590) and never uses it;
the filename for a home page with a found title depends only on
whether the URL has a navigation-map entry.  At the input below the
title `"Fancy Page"` is NOT generic (no domain/troop/welcome
substring) and there is no navigation-map entry, so by the claim the
filename should be the sanitized title `"Fancy Page"`; the code
produces `"Home"`. -/
theorem C3_home_filename_generic_unused :
    choose_filename "https://x.com/" "x.com" [] "https://x.com/" (some "Fancy Page") = "Home" ∧
    ([("x.com" : String), "troop", "welcome"].any
      (fun pattern => strContains (pyLower "Fancy Page") (pyLower pattern))) = false ∧
    sanitize_filename "Fancy Page" = "Fancy Page" := by
  exact ⟨rfl, by decide, rfl⟩

/-! ## Paths through `scrape_pageM` (helper lemmas) -/

theorem scrape_pageM_fails (o : PageOracle) (max_pages : Nat) (st : ScrapeState)
    (url : String) (hnew : st.visited.contains url = false)
    (hcap : st.visited.length < max_pages) (hf : o.fails url = true) :
    scrape_pageM o max_pages st url = ({ st with visited := url :: st.visited }, [], []) := by
  unfold scrape_pageM
  rw [if_neg (by simpa using hnew), if_neg (Nat.not_le.mpr hcap), if_pos hf]

theorem scrape_pageM_junk (o : PageOracle) (max_pages : Nat) (st : ScrapeState)
    (url : String) (hnew : st.visited.contains url = false)
    (hcap : st.visited.length < max_pages) (hf : o.fails url = false)
    (hj : (o.isJunk url && !o.hasEmbeds url) = true) :
    scrape_pageM o max_pages st url = ({ st with visited := url :: st.visited }, [], []) := by
  unfold scrape_pageM
  rw [if_neg (by simpa using hnew), if_neg (Nat.not_le.mpr hcap), if_neg (by simp [hf]), if_pos hj]

theorem scrape_pageM_dup (o : PageOracle) (max_pages : Nat) (st : ScrapeState)
    (url : String) (hnew : st.visited.contains url = false)
    (hcap : st.visited.length < max_pages) (hf : o.fails url = false)
    (hj : (o.isJunk url && !o.hasEmbeds url) = false) (w : String)
    (hdl : dictLookup (o.md5hex (pyStrip (content_for_hash (o.markdown url)))) st.savedPages = some w) :
    scrape_pageM o max_pages st url = ({ st with visited := url :: st.visited }, [], []) := by
  unfold scrape_pageM
  rw [if_neg (by simpa using hnew), if_neg (Nat.not_le.mpr hcap), if_neg (by simp [hf]),
    if_neg (by simp [hj]), hdl]

theorem scrape_pageM_save (o : PageOracle) (max_pages : Nat) (st : ScrapeState)
    (url : String) (hnew : st.visited.contains url = false)
    (hcap : st.visited.length < max_pages) (hf : o.fails url = false)
    (hj : (o.isJunk url && !o.hasEmbeds url) = false)
    (hdl : dictLookup (o.md5hex (pyStrip (content_for_hash (o.markdown url)))) st.savedPages = none) :
    scrape_pageM o max_pages st url =
      (⟨url :: st.visited,
        st.savedPages ++
          [(o.md5hex (pyStrip (content_for_hash (o.markdown url))), o.savedName url)]⟩,
       ((o.links url).filter (fun l => !(url :: st.visited).contains l)).filter
         (fun l => !is_low_priority_url l),
       ((o.links url).filter (fun l => !(url :: st.visited).contains l)).filter
         (fun l => is_low_priority_url l)) := by
  unfold scrape_pageM
  rw [if_neg (by simpa using hnew), if_neg (Nat.not_le.mpr hcap), if_neg (by simp [hf]),
    if_neg (by simp [hj]), hdl]

/-! ## Claim C10 — every processed URL is marked visited first -/

/-- C10: a popped, not-yet-visited URL under the page cap is added to
the visited set unconditionally — on the error path, the junk path and
the duplicate path just as on the save path — so each such URL
consumes one unit of the `max_pages` budget even when no file is
saved and no links are returned. -/
theorem C10_visited_consumes_budget (o : PageOracle) (max_pages : Nat)
    (st : ScrapeState) (url : String)
    (hnew : st.visited.contains url = false)
    (hcap : st.visited.length < max_pages) :
    ((scrape_pageM o max_pages st url).1.visited = url :: st.visited) ∧
    ((scrape_pageM o max_pages st url).1.visited.length = st.visited.length + 1) ∧
    (o.fails url = true →
      scrape_pageM o max_pages st url = ({ st with visited := url :: st.visited }, [], [])) ∧
    (o.fails url = false → (o.isJunk url && !o.hasEmbeds url) = true →
      scrape_pageM o max_pages st url = ({ st with visited := url :: st.visited }, [], [])) ∧
    (∀ w : String, o.fails url = false → (o.isJunk url && !o.hasEmbeds url) = false →
      dictLookup (o.md5hex (pyStrip (content_for_hash (o.markdown url)))) st.savedPages = some w →
      scrape_pageM o max_pages st url = ({ st with visited := url :: st.visited }, [], [])) := by
  have hvis : (scrape_pageM o max_pages st url).1.visited = url :: st.visited := by
    cases hf : o.fails url with
    | true => rw [scrape_pageM_fails o max_pages st url hnew hcap hf]
    | false =>
      cases hj : (o.isJunk url && !o.hasEmbeds url) with
      | true => rw [scrape_pageM_junk o max_pages st url hnew hcap hf hj]
      | false =>
        cases hdl : dictLookup (o.md5hex (pyStrip (content_for_hash (o.markdown url)))) st.savedPages with
        | some w => rw [scrape_pageM_dup o max_pages st url hnew hcap hf hj w hdl]
        | none => rw [scrape_pageM_save o max_pages st url hnew hcap hf hj hdl]
  refine ⟨hvis, by rw [hvis]; rfl, ?_, ?_, ?_⟩
  · intro hf
    exact scrape_pageM_fails o max_pages st url hnew hcap hf
  · intro hf hj
    exact scrape_pageM_junk o max_pages st url hnew hcap hf hj
  · intro w hf hj hdl
    exact scrape_pageM_dup o max_pages st url hnew hcap hf hj w hdl

/-- C10 (witness): an erroring page at a concrete state still marks
the URL visited, consumes budget, and yields no links. -/
theorem C10_witness :
    scrape_pageM ⟨fun _ => true, fun _ => [], fun _ => false, fun _ => false,
        fun _ => "", fun s => s, fun u => u⟩ 3 ⟨["x"], []⟩ "a" =
      ({ visited := ["a", "x"], savedPages := [] }, [], []) :=
  (C10_visited_consumes_budget
    ⟨fun _ => true, fun _ => [], fun _ => false, fun _ => false,
     fun _ => "", fun s => s, fun u => u⟩ 3 ⟨["x"], []⟩ "a"
    (by decide) (by decide)).2.2.1 rfl

/-! ## Claim C2 — frontier queue discipline -/

/-- C2: one iteration of the `scrape_site` loop.  Below the page cap:
the head of the high-priority queue is processed when that queue is
non-empty, the freshly extracted links going to the tails of the two
queues (FIFO); with the high queue empty, the head of the low-priority
queue is processed only below the 80% threshold; at or above the
threshold a non-empty low queue is discarded and the crawl stops; with
both queues empty the crawl stops; at the cap the crawl stops. -/
theorem C2_frontier_discipline (o : PageOracle) (max_pages fuel : Nat)
    (st : ScrapeState) (url : String) (rest high low : List String) :
    (st.visited.length < max_pages →
      scrape_site_loop o max_pages (fuel + 1) st (url :: rest) low =
        scrape_site_loop o max_pages fuel (scrape_pageM o max_pages st url).1
          (rest ++ (scrape_pageM o max_pages st url).2.1)
          (low ++ (scrape_pageM o max_pages st url).2.2)) ∧
    (st.visited.length < max_pages → 5 * st.visited.length < 4 * max_pages →
      scrape_site_loop o max_pages (fuel + 1) st [] (url :: rest) =
        scrape_site_loop o max_pages fuel (scrape_pageM o max_pages st url).1
          ((scrape_pageM o max_pages st url).2.1)
          (rest ++ (scrape_pageM o max_pages st url).2.2)) ∧
    (st.visited.length < max_pages → ¬ 5 * st.visited.length < 4 * max_pages →
      scrape_site_loop o max_pages (fuel + 1) st [] (url :: rest) = st) ∧
    (st.visited.length < max_pages →
      scrape_site_loop o max_pages (fuel + 1) st [] [] = st) ∧
    (¬ st.visited.length < max_pages →
      scrape_site_loop o max_pages (fuel + 1) st high low = st) := by
  refine ⟨?_, ?_, ?_, ?_, ?_⟩
  · intro hcap
    simp only [scrape_site_loop, if_pos hcap]
  · intro hcap hthr
    simp only [scrape_site_loop, if_pos hcap, if_pos hthr]
  · intro hcap hthr
    simp only [scrape_site_loop, if_pos hcap, if_neg hthr]
  · intro hcap
    simp only [scrape_site_loop, if_pos hcap]
  · intro hcap
    simp only [scrape_site_loop, if_neg hcap]

/-- C2 (witness): the first loop iteration of a concrete crawl pops
the single high-priority entry. -/
theorem C2_witness :
    scrape_site_loop constOracle 2 1 ⟨[], []⟩ ["a"] [] =
      scrape_site_loop constOracle 2 0 (scrape_pageM constOracle 2 ⟨[], []⟩ "a").1
        ([] ++ (scrape_pageM constOracle 2 ⟨[], []⟩ "a").2.1)
        ([] ++ (scrape_pageM constOracle 2 ⟨[], []⟩ "a").2.2) :=
  (C2_frontier_discipline constOracle 2 0 ⟨[], []⟩ "a" [] [] []).1 (by decide)

/-! ## Claim C6 — content-hash dedup -/

/-- C6: processing a first page saves it (one new entry in the
saved-pages index); processing a second page whose post-header body is
byte-identical finds the same hash in the index, saves nothing, and
returns no links. -/
theorem C6_content_dedup (o : PageOracle) (max_pages : Nat) (st : ScrapeState)
    (u1 u2 : String)
    (h1new : st.visited.contains u1 = false)
    (h1cap : st.visited.length < max_pages)
    (h1ok : o.fails u1 = false)
    (h1junk : (o.isJunk u1 && !o.hasEmbeds u1) = false)
    (h1dup : dictLookup (o.md5hex (pyStrip (content_for_hash (o.markdown u1)))) st.savedPages = none)
    (h2new : (u1 :: st.visited).contains u2 = false)
    (h2cap : st.visited.length + 1 < max_pages)
    (h2ok : o.fails u2 = false)
    (h2junk : (o.isJunk u2 && !o.hasEmbeds u2) = false)
    (hsame : content_for_hash (o.markdown u2) = content_for_hash (o.markdown u1)) :
    ((scrape_pageM o max_pages st u1).1.savedPages =
      st.savedPages ++
        [(o.md5hex (pyStrip (content_for_hash (o.markdown u1))), o.savedName u1)]) ∧
    ((scrape_pageM o max_pages (scrape_pageM o max_pages st u1).1 u2).1.savedPages =
      (scrape_pageM o max_pages st u1).1.savedPages) ∧
    ((scrape_pageM o max_pages (scrape_pageM o max_pages st u1).1 u2).2 = ([], [])) := by
  have h1eq := scrape_pageM_save o max_pages st u1 h1new h1cap h1ok h1junk h1dup
  have h2eq := scrape_pageM_dup o max_pages
      (⟨u1 :: st.visited,
        st.savedPages ++
          [(o.md5hex (pyStrip (content_for_hash (o.markdown u1))), o.savedName u1)]⟩ : ScrapeState)
      u2 h2new h2cap h2ok h2junk (o.savedName u1)
      (by rw [hsame]; exact dictLookup_append_self h1dup)
  refine ⟨by rw [h1eq], ?_, ?_⟩
  · simp only [h1eq, h2eq]
  · simp only [h1eq, h2eq]

/-- C6 (witness): two concrete pages rendering to the same document;
the second is skipped as a duplicate. -/
theorem C6_witness :
    ((scrape_pageM dupOracle 5 ⟨[], []⟩ "a").1.savedPages =
      [] ++ [(dupOracle.md5hex (pyStrip (content_for_hash (dupOracle.markdown "a"))),
              dupOracle.savedName "a")]) ∧
    ((scrape_pageM dupOracle 5 (scrape_pageM dupOracle 5 ⟨[], []⟩ "a").1 "b").1.savedPages =
      (scrape_pageM dupOracle 5 ⟨[], []⟩ "a").1.savedPages) ∧
    ((scrape_pageM dupOracle 5 (scrape_pageM dupOracle 5 ⟨[], []⟩ "a").1 "b").2 = ([], [])) :=
  C6_content_dedup dupOracle 5 ⟨[], []⟩ "a" "b" (by decide) (by decide) rfl rfl
    (by decide) (by decide) (by decide) rfl rfl rfl

/-! ## Claim C4 — embed notice splice -/

theorem splitFirst_append_not_mem (sep : Char) (l m : List Char) (h : sep ∉ l) :
    splitFirst sep (l ++ sep :: m) = some (l, m) := by
  induction l with
  | nil => simp [splitFirst]
  | cons c t ih =>
    have hcs : sep ≠ c ∧ sep ∉ t := by simpa [List.mem_cons, not_or] using h
    have hc : (c == sep) = false := beq_eq_false_iff_ne.mpr (Ne.symm hcs.1)
    simp [splitFirst, hc, ih hcs.2]

theorem pySplitN_double (sep : Char) (l m : List Char) (h : sep ∉ l) :
    pySplitN (l ++ sep :: sep :: m) sep 2 = [l, [], m] := by
  have h1 : splitFirst sep (l ++ sep :: sep :: m) = some (l, sep :: m) :=
    splitFirst_append_not_mem sep l (sep :: m) h
  have h2 : splitFirst sep (sep :: m) = some ([], m) := by simp [splitFirst]
  simp [pySplitN, h1, h2]

/-- C4: for a non-junk page with detected Google embeds, the saved
markdown is the normally rendered markdown (`# Source: <url>` header
line, blank line, body) with the embed-notice block spliced in
immediately after the first two lines and before the body. -/
theorem C4_embed_splice (url body : String) (embeds : List String)
    (hne : embeds ≠ []) (hurl : '\n' ∉ url.data) :
    splice_embed_note ("# Source: " ++ url ++ "\n\n" ++ body) embeds =
      "# Source: " ++ url ++ "\n\n" ++ embed_notice_block embeds ++ body := by
  have hmem : '\n' ∉ ("# Source: ".data ++ url.data) := by
    intro hm
    rcases List.mem_append.mp hm with hx | hx
    · exact absurd hx (by decide)
    · exact hurl hx
  have hlit : ("\n\n" : String).data = ['\n', '\n'] := rfl
  have hdata : ("# Source: " ++ url ++ "\n\n" ++ body).data
      = ("# Source: ".data ++ url.data) ++ '\n' :: '\n' :: body.data := by
    simp [String.data_append, hlit, List.append_assoc]
  unfold splice_embed_note
  rw [hdata]
  simp only [MARKDOWN_HEADER_SPLIT]
  rw [pySplitN_double '\n' _ _ hmem]
  simp only [List.length_cons, List.length_nil, List.headD, List.tail, joinChar]
  rw [if_pos (by norm_num)]
  apply String.ext
  simp [String.data_append, embed_note, embed_notice_block, List.append_assoc,
    String.mk, hlit]

/-- C4 (witness): a concrete page with one Slides embed. -/
theorem C4_witness :
    splice_embed_note ("# Source: " ++ "https://u" ++ "\n\n" ++ "Body")
        ["https://docs.google.com/presentation/d/1"] =
      "# Source: " ++ "https://u" ++ "\n\n" ++
        embed_notice_block ["https://docs.google.com/presentation/d/1"] ++ "Body" :=
  C4_embed_splice "https://u" "Body" ["https://docs.google.com/presentation/d/1"]
    (by decide) (by decide)

/-! ## Claim C7 — `normalize_url` (lemmas on the splitting pipeline) -/

theorem splitFirst_none_of_not_mem (sep : Char) (l : List Char) (h : sep ∉ l) :
    splitFirst sep l = none := by
  induction l with
  | nil => rfl
  | cons c t ih =>
    have hcs : sep ≠ c ∧ sep ∉ t := by simpa [List.mem_cons, not_or] using h
    have hc : (c == sep) = false := beq_eq_false_iff_ne.mpr (Ne.symm hcs.1)
    simp [splitFirst, hc, ih hcs.2]

theorem splitFirst_some_decomp (sep : Char) (l a b : List Char)
    (h : splitFirst sep l = some (a, b)) : l = a ++ sep :: b ∧ sep ∉ a := by
  induction l generalizing a with
  | nil => simp [splitFirst] at h
  | cons c t ih =>
    by_cases hc : (c == sep) = true
    · have hce : c = sep := by simpa using hc
      rw [splitFirst, if_pos hc] at h
      simp only [Option.some.injEq, Prod.mk.injEq] at h
      obtain ⟨ha, hb⟩ := h
      subst ha hb
      simp [hce]
    · rw [splitFirst, if_neg hc] at h
      cases hsf : splitFirst sep t with
      | none => rw [hsf] at h; simp at h
      | some p =>
        obtain ⟨a0, b0⟩ := p
        rw [hsf] at h
        simp only [Option.some.injEq, Prod.mk.injEq] at h
        obtain ⟨ha, hb⟩ := h
        subst hb
        obtain ⟨hdec, hnmem⟩ := ih a0 hsf
        subst ha
        refine ⟨by rw [hdec]; rfl, ?_⟩
        intro hm
        rcases List.mem_cons.mp hm with he | hm2
        · exact absurd he.symm (by simpa using hc)
        · exact hnmem hm2

theorem splitFirst_append_some (sep : Char) (l m a b : List Char)
    (h : splitFirst sep l = some (a, b)) :
    splitFirst sep (l ++ m) = some (a, b ++ m) := by
  induction l generalizing a with
  | nil => simp [splitFirst] at h
  | cons c t ih =>
    by_cases hc : (c == sep) = true
    · rw [splitFirst, if_pos hc] at h
      simp only [Option.some.injEq, Prod.mk.injEq] at h
      obtain ⟨ha, hb⟩ := h
      subst ha hb
      simp [splitFirst, hc]
    · rw [splitFirst, if_neg hc] at h
      cases hsf : splitFirst sep t with
      | none => rw [hsf] at h; simp at h
      | some p =>
        obtain ⟨a0, b0⟩ := p
        rw [hsf] at h
        simp only [Option.some.injEq, Prod.mk.injEq] at h
        obtain ⟨ha, hb⟩ := h
        subst hb ha
        simp [splitFirst, hc, ih a0 hsf]

theorem splitFirst_append_none (sep : Char) (l m : List Char)
    (h : splitFirst sep l = none) :
    splitFirst sep (l ++ m) =
      Option.map (fun p => (l ++ p.1, p.2)) (splitFirst sep m) := by
  induction l with
  | nil => simp
  | cons c t ih =>
    by_cases hc : (c == sep) = true
    · rw [splitFirst, if_pos hc] at h; simp at h
    · rw [splitFirst, if_neg hc] at h
      have ht : splitFirst sep t = none := by
        cases hsf : splitFirst sep t with
        | none => rfl
        | some p => obtain ⟨a0, b0⟩ := p; rw [hsf] at h; simp at h
      rw [List.cons_append, splitFirst, if_neg hc, ih ht]
      cases splitFirst sep m with
      | none => rfl
      | some p => rfl

theorem netlocSpan_decomp (l : List Char) :
    (netlocSpan l).1 ++ (netlocSpan l).2 = l := by
  induction l with
  | nil => rfl
  | cons c t ih =>
    by_cases hc : (c == '/' || c == '?' || c == '#') = true
    · simp [netlocSpan, hc]
    · simp only [netlocSpan, Bool.not_eq_true] at hc ⊢
      rw [if_neg (by simp [hc])]
      simpa using ih

theorem netlocSpan_hash (l m : List Char) (h : '#' ∉ l) :
    netlocSpan (l ++ '#' :: m) = ((netlocSpan l).1, (netlocSpan l).2 ++ '#' :: m) := by
  induction l with
  | nil => simp [netlocSpan]
  | cons c t ih =>
    have hcs : '#' ≠ c ∧ '#' ∉ t := by simpa [List.mem_cons, not_or] using h
    by_cases hc : (c == '/' || c == '?' || c == '#') = true
    · simp [netlocSpan, hc]
    · rw [List.cons_append, netlocSpan, if_neg hc, ih hcs.2]
      rw [netlocSpan, if_neg hc]

theorem pySplitNetloc_hash (l m : List Char) (h : '#' ∉ l) :
    (pySplitNetloc (l ++ '#' :: m) =
      ((pySplitNetloc l).1, (pySplitNetloc l).2 ++ '#' :: m)) ∧
    '#' ∉ (pySplitNetloc l).2 := by
  match l, h with
  | [], h =>
    refine ⟨?_, by simp [pySplitNetloc]⟩
    cases m with
    | nil => simp [pySplitNetloc]
    | cons m0 m1 => simp [pySplitNetloc]
  | [c1], h =>
    refine ⟨?_, by simpa [pySplitNetloc] using h⟩
    simp [pySplitNetloc]
  | c1 :: c2 :: t, h =>
    have h2 : '#' ∉ t := fun hm => h (by simp [hm])
    by_cases hsl : (c1 == '/' && c2 == '/') = true
    · constructor
      · simp only [List.cons_append, pySplitNetloc, if_pos hsl, netlocSpan_hash t m h2]
      · simp only [pySplitNetloc, if_pos hsl]
        intro hm
        exact h2 (by rw [← netlocSpan_decomp t]; exact List.mem_append.mpr (Or.inr hm))
    · constructor
      · simp only [List.cons_append, pySplitNetloc]
        rw [if_neg hsl, if_neg hsl]
        rfl
      · simp only [pySplitNetloc, if_neg hsl]
        exact h

theorem pySplitFragment_append (l m : List Char) (h : '#' ∉ l) :
    pySplitFragment (l ++ '#' :: m) = (l, String.mk m) := by
  simp [pySplitFragment, splitFirst_append_not_mem '#' l m h]

theorem pySplitFragment_none (l : List Char) (h : '#' ∉ l) :
    pySplitFragment l = (l, "") := by
  simp [pySplitFragment, splitFirst_none_of_not_mem '#' l h]

theorem pySplitScheme_hash (bd fd : List Char) (d : String) (h : '#' ∉ bd) :
    (pySplitScheme (bd ++ '#' :: fd) d =
      ((pySplitScheme bd d).1, (pySplitScheme bd d).2 ++ '#' :: fd)) ∧
    '#' ∉ (pySplitScheme bd d).2 := by
  cases hsf : splitFirst ':' bd with
  | none =>
    have hbase : pySplitScheme bd d = (d, bd) := by simp [pySplitScheme, hsf]
    have happ := splitFirst_append_none ':' bd ('#' :: fd) hsf
    cases hf : splitFirst ':' fd with
    | none =>
      have hff : splitFirst ':' ('#' :: fd) = none := by simp [splitFirst, hf]
      have happ3 : splitFirst ':' (bd ++ '#' :: fd) = none := by
        rw [hff] at happ; simpa using happ
      exact ⟨by simp [pySplitScheme, happ3, hsf], by simp [pySplitScheme, hsf]; exact h⟩
    | some p =>
      obtain ⟨a, b⟩ := p
      have hff : splitFirst ':' ('#' :: fd) = some ('#' :: a, b) := by
        simp [splitFirst, hf]
      rw [hff] at happ
      refine ⟨?_, by simp [pySplitScheme, hsf]; exact h⟩
      cases bd with
      | nil =>
        rw [List.nil_append, hbase]
        unfold pySplitScheme
        rw [hff]
        simp [show ('#'.isAlpha) = false from rfl]
      | cons c0 bs =>
        have hall : (bs ++ '#' :: a).all isSchemeChar = false := by
          simp [List.all_append, isSchemeChar]
        have happ2 : splitFirst ':' ((c0 :: bs) ++ '#' :: fd)
            = some (c0 :: (bs ++ '#' :: a), b) := by
          simpa using happ
        rw [hbase]
        unfold pySplitScheme
        rw [happ2]
        simp [hall]
  | some p =>
    obtain ⟨a, b⟩ := p
    obtain ⟨hdec, hna⟩ := splitFirst_some_decomp ':' bd a b hsf
    have happ := splitFirst_append_some ':' bd ('#' :: fd) a b hsf
    have hnb : '#' ∉ b := by
      intro hb
      exact h (by rw [hdec]; exact List.mem_append.mpr (Or.inr (List.mem_cons.mpr (Or.inr hb))))
    cases a with
    | nil =>
      exact ⟨by simp [pySplitScheme, happ, hsf], by simp [pySplitScheme, hsf]; exact h⟩
    | cons c0 rest =>
      by_cases hcond : (c0.isAlpha && rest.all isSchemeChar) = true
      · exact ⟨by simp [pySplitScheme, happ, hsf, hcond],
          by simp [pySplitScheme, hsf, hcond]; exact hnb⟩
      · have hcond2 : (c0.isAlpha && rest.all isSchemeChar) = false := by
          simpa using hcond
        exact ⟨by simp [pySplitScheme, happ, hsf, hcond2],
          by simp [pySplitScheme, hsf, hcond2]; exact h⟩

theorem urlparseCore_hash (bd fd : List Char) (h : '#' ∉ bd) :
    urlparseCore (bd ++ '#' :: fd) "" =
      { urlparseCore bd "" with fragment := String.mk fd } := by
  obtain ⟨hs, h2⟩ := pySplitScheme_hash bd fd "" h
  obtain ⟨hn, h3⟩ := pySplitNetloc_hash (pySplitScheme bd "").2 fd h2
  have hf1 : pySplitFragment ((pySplitNetloc (pySplitScheme bd "").2).2 ++ '#' :: fd)
      = ((pySplitNetloc (pySplitScheme bd "").2).2, String.mk fd) :=
    pySplitFragment_append _ _ h3
  have hf2 : pySplitFragment ((pySplitNetloc (pySplitScheme bd "").2).2)
      = ((pySplitNetloc (pySplitScheme bd "").2).2, "") :=
    pySplitFragment_none _ h3
  simp only [urlparseCore, hs, hn, hf1, hf2]

theorem rstripSlash_append (p : String) :
    rstripSlash (p ++ "/") = rstripSlash p := by
  unfold rstripSlash
  rw [String.data_append]
  simp [List.reverse_append, List.dropWhile]

theorem append_slash_ne_root (p : String) (h : p ≠ "") : p ++ "/" ≠ "/" := by
  intro he
  apply h
  have hd := congrArg String.data he
  rw [String.data_append] at hd
  have hlen := congrArg List.length hd
  simp at hlen
  exact String.ext (by simpa using List.eq_nil_of_length_eq_zero hlen)

theorem urlparse_hash (base frag : String) (h : '#' ∉ base.data) :
    urlparse (base ++ "#" ++ frag) = { urlparse base with fragment := frag } := by
  have hdata : (base ++ "#" ++ frag).data = base.data ++ '#' :: frag.data := by
    simp [String.data_append, show ("#" : String).data = ['#'] from rfl]
  unfold urlparse urlparseD
  rw [hdata, urlparseCore_hash base.data frag.data h]

/-- C7: `normalize_url` (i) keeps the bare-root trailing slash and
strips the non-root one, (ii) maps two URLs that parse identically
except for one extra trailing slash on a non-root path to the same
output, and (iii) ignores an appended fragment. -/
theorem C7_normalize_url (s1 s2 base frag : String) :
    (normalize_url "https://x/" = "https://x/" ∧
     normalize_url "https://x/page/" = "https://x/page") ∧
    ((urlparse s2).scheme = (urlparse s1).scheme →
     (urlparse s2).netloc = (urlparse s1).netloc →
     (urlparse s2).params = (urlparse s1).params →
     (urlparse s2).query = (urlparse s1).query →
     (urlparse s2).path = (urlparse s1).path ++ "/" →
     (urlparse s1).path ≠ "" → (urlparse s1).path ≠ "/" →
     normalize_url s2 = normalize_url s1) ∧
    ('#' ∉ base.data → normalize_url (base ++ "#" ++ frag) = normalize_url base) := by
  refine ⟨⟨by decide, by decide⟩, ?_, ?_⟩
  · intro h1 h2 h3 h4 h5 h6 h7
    simp only [normalize_url]
    rw [h1, h2, h3, h4, h5]
    rw [if_pos (append_slash_ne_root _ h6), if_pos h7, rstripSlash_append]
  · intro h
    simp only [normalize_url]
    rw [urlparse_hash base frag h]

/-- C7 (witness): the trailing-slash pair and a fragment variant. -/
theorem C7_witness :
    normalize_url "https://x/page/" = normalize_url "https://x/page" ∧
    normalize_url ("https://x/a" ++ "#" ++ "sec") = normalize_url "https://x/a" :=
  ⟨(C7_normalize_url "https://x/page" "https://x/page/" "" "").2.1 (by decide) (by decide)
     (by decide) (by decide) (by decide) (by decide) (by decide),
   (C7_normalize_url "" "" "https://x/a" "sec").2.2 (by decide)⟩

/-! ## Claim C9 — `extract_url_from_javascript` -/

/-- C9: a non-`javascript:` href yields no link; a `javascript:` href
with no `LinkTo('...')` match yields no link; a matching href yields
the captured target resolved against the context URL, and in
particular the spec's example resolves to `urljoin(base, "p.html")`. -/
theorem C9_extract_url_from_javascript :
    (∀ href ctx : String, strStartsWith href "javascript:" = false →
      extract_url_from_javascript href ctx = none) ∧
    (∀ href ctx : String, strStartsWith href "javascript:" = true →
      searchLinkTo href.data = none →
      extract_url_from_javascript href ctx = none) ∧
    (∀ href ctx : String, ∀ g : List Char, strStartsWith href "javascript:" = true →
      searchLinkTo href.data = some g →
      extract_url_from_javascript href ctx = some (urljoin ctx (String.mk g))) ∧
    (∀ ctx : String,
      extract_url_from_javascript "javascript:LinkTo('p.html','')" ctx =
        some (urljoin ctx "p.html")) := by
  have hsearch : searchLinkTo ("javascript:LinkTo('p.html','')".data) = some ("p.html".data) := by
    decide
  refine ⟨?_, ?_, ?_, ?_⟩
  · intro href ctx hpre
    simp [extract_url_from_javascript, hpre]
  · intro href ctx hpre hs
    simp [extract_url_from_javascript, hpre, hs]
  · intro href ctx g hpre hs
    simp [extract_url_from_javascript, hpre, hs]
  · intro ctx
    simp [extract_url_from_javascript, hsearch, show
      strStartsWith "javascript:LinkTo('p.html','')" "javascript:" = true by decide]

/-- C9 (witness): the three behaviours at the test inputs of the
reference suite. -/
theorem C9_witness :
    extract_url_from_javascript "https://example.com" "https://example.com/" = none ∧
    extract_url_from_javascript "javascript:alert('hi')" "https://example.com/" = none ∧
    extract_url_from_javascript "javascript:LinkTo('p.html','')" "https://example.com/" =
      some (urljoin "https://example.com/" "p.html") :=
  ⟨C9_extract_url_from_javascript.1 "https://example.com" "https://example.com/" (by decide),
   C9_extract_url_from_javascript.2.1 "javascript:alert('hi')" "https://example.com/"
     (by decide) (by decide),
   C9_extract_url_from_javascript.2.2.2 "https://example.com/"⟩

end Scrape2MD
